import Mathlib

/-!
# Verification of the ATS scoring engine (`backend/services/ats_score.py`)

This file gives a shallow embedding of the ATS (Applicant Tracking System)
resume-scoring engine of the `cv-maker-web` repository and proves, or refutes,
the frozen claims about it.

Two layers are embedded:

* a typed layer (`ResumeData`, the six `check*` scorers, `analyzeKeywords`,
  `generateSuggestions`, `analyzeResumeData`) translating the Python functions
  over well-formed resume dictionaries, with Python integers as `Int`,
  Python floor division `//` as `Int.fdiv`, Python float division modelled
  exactly over `ℚ`, and Python sets modelled as duplicate-free lists
  (`List.dedup`); regex `\b[a-zA-Z]{3,}\b` and `\w` are modelled over ASCII;
* an untyped layer (`PyVal`, the `pyCheck*` functions in the `Except` monad)
  modelling Python's dynamic semantics of the same code — `.get` on a
  non-dict raising `AttributeError`, iteration over a non-list raising
  `TypeError`, and the `try/except` wrapper of `analyze_resume_data` — used
  for the exception-safety claim.
-/

/-! ## String helpers: substring containment (Python's `in` on strings) -/

/-- Checks whether `needle` is a prefix of `hay`: true when `needle` is an initial segment of
`hay` (character lists). -/
def startsWithList : List Char → List Char → Bool
  | [], _ => true
  | _ :: _, [] => false
  | a :: as, b :: bs => a == b && startsWithList as bs

/-- Checks whether `needle` occurs contiguously inside `hay`.
Models Python's `needle in hay` on strings. -/
def hasSubList (needle : List Char) : List Char → Bool
  | [] => startsWithList needle []
  | c :: cs => startsWithList needle (c :: cs) || hasSubList needle cs

/-- Python's `sub in s` substring test. -/
def strContainsStr (s sub : String) : Bool :=
  hasSubList sub.toList s.toList

/-- Python's `str.lower()`, over ASCII. -/
def toLowerStr (s : String) : String :=
  String.mk (s.toList.map Char.toLower)

/-- Python's `min` on two ints. -/
def pyMin (a b : Int) : Int := if a ≤ b then a else b

/-- Python's `max` on two ints. -/
def pyMax (a b : Int) : Int := if b ≤ a then a else b

/-- Python's `s.endswith(suf)`. -/
def endsWithStr (s suf : String) : Bool :=
  startsWithList suf.toList.reverse s.toList.reverse

/-- Python's `' '.join(l)`. -/
def joinSpace : List String → String
  | [] => ""
  | [s] => s
  | s :: rest => s ++ " " ++ joinSpace rest

/-! ## Tokenizer: `re.findall(r'\b[a-zA-Z]{3,}\b', text)`

`\w` (hence `\b`) is modelled over ASCII: a word character is an ASCII
letter, an ASCII digit or an underscore.  A match of the pattern is a
maximal word-character run that consists only of letters and has length at
least 3 (a run touching a digit or underscore has no interior word
boundary, so it produces no match). -/

/-- ASCII model of the regex word character class `\w`. -/
def isWordChar (c : Char) : Bool :=
  c.isAlpha || c.isDigit || c == '_'

/-- Splits a character list into its maximal runs of word characters,
dropping the non-word separators.  `acc` holds the reversed current run. -/
def splitRunsAux : List Char → List Char → List (List Char)
  | [], acc => if acc.isEmpty then [] else [acc.reverse]
  | c :: cs, acc =>
    if isWordChar c then
      splitRunsAux cs (c :: acc)
    else if acc.isEmpty then
      splitRunsAux cs []
    else
      acc.reverse :: splitRunsAux cs []

/-- Maximal word-character runs of a character list. -/
def splitRuns (l : List Char) : List (List Char) :=
  splitRunsAux l []

/-- Embeds `re.findall(r'\b[a-zA-Z]{3,}\b', s)`: the maximal word runs of `s` that
are purely alphabetic and have length ≥ 3, in order of occurrence. -/
def findAlphaTokens (s : String) : List String :=
  ((splitRuns s.toList).filter
    (fun r => r.all Char.isAlpha && decide (3 ≤ r.length))).map
    (fun r => String.mk r)

/-! ## The static keyword dictionary (`ATSScorer.__init__`) -/

/-- Embeds `self.keywords['technical']`. -/
def technicalKeywords : List String :=
  ["python", "java", "javascript", "sql", "html", "css", "react", "node",
   "aws", "cloud", "docker", "kubernetes", "git", "agile", "scrum",
   "machine learning", "data analysis", "excel", "statistics",
   "project management", "communication", "leadership", "problem solving"]

/-- Embeds `self.keywords['soft_skills']`. -/
def softSkillKeywords : List String :=
  ["teamwork", "collaboration", "communication", "leadership",
   "problem solving", "critical thinking", "time management",
   "adaptability", "creativity", "initiative"]

/-- Embeds `self.keywords['action_verbs']`. -/
def actionVerbKeywords : List String :=
  ["achieved", "led", "developed", "created", "implemented",
   "managed", "increased", "decreased", "improved", "designed",
   "organized", "coordinated", "analyzed", "presented", "trained"]

/-- The union of the three keyword categories
(`all_keywords.update(category)` builds a Python set; here a
duplicate-free list). -/
def allKeywords : List String :=
  (technicalKeywords ++ softSkillKeywords ++ actionVerbKeywords).dedup

/-! ## Typed resume data

A well-formed resume dictionary as the scorer reads it.  A missing or
`None` string field is represented by `""` (both are falsy and both make
`.get(key, '')` effectively yield `''` for every use in the scorer).  The
`experiences` / `education` / `skills` keys can be absent, in which case
`_check_experience` and friends fall back to `content` — absence is an
`Option.none`.  The nested `content` dict contributes its own `summary`,
`experiences`, `education` and `skills`. -/

structure Experience where
  description : String
  deriving DecidableEq, Repr

structure Education where
  degree : String
  institution : String
  description : String
  deriving DecidableEq, Repr

structure Skill where
  name : String
  category : String
  level : String
  deriving DecidableEq, Repr

structure ResumeData where
  email : String := ""
  phone : String := ""
  city : String := ""
  country : String := ""
  full_name : String := ""
  summary : String := ""
  contentSummary : String := ""
  experiences : Option (List Experience) := some []
  contentExperiences : List Experience := []
  education : Option (List Education) := some []
  contentEducation : List Education := []
  skills : Option (List Skill) := some []
  contentSkills : List Skill := []
  deriving DecidableEq, Repr

/-- Embeds `resume_data.get('experiences', resume_data.get('content', {}).get('experiences', []))`. -/
def ResumeData.expList (rd : ResumeData) : List Experience :=
  rd.experiences.getD rd.contentExperiences

/-- Embeds `resume_data.get('education', resume_data.get('content', {}).get('education', []))`. -/
def ResumeData.eduList (rd : ResumeData) : List Education :=
  rd.education.getD rd.contentEducation

/-- Embeds `resume_data.get('skills', resume_data.get('content', {}).get('skills', []))`. -/
def ResumeData.skillList (rd : ResumeData) : List Skill :=
  rd.skills.getD rd.contentSkills

/-! ## Stringified resume (`str(resume_data)`) used by the formatting checks

Only its value as an opaque text matters to every claim proved here (all
formatting bounds hold for an arbitrary string), but the definition still
renders the dictionary in Python `str()` style with the keys in the order
the scorer reads them. -/

/-- Python `repr` of a string, simplified to the single-quote form. -/
def pyReprStr (s : String) : String := "'" ++ s ++ "'"

/-- Python `str()` of one experience dict (the fields the ATS model uses). -/
def reprExperience (e : Experience) : String :=
  "\x7b'description': " ++ pyReprStr e.description ++ "\x7d"

/-- Python `str()` of one education dict. -/
def reprEducation (e : Education) : String :=
  "\x7b'degree': " ++ pyReprStr e.degree ++ ", 'institution': " ++
    pyReprStr e.institution ++ ", 'description': " ++ pyReprStr e.description ++ "\x7d"

/-- Python `str()` of one skill dict. -/
def reprSkill (s : Skill) : String :=
  "\x7b'name': " ++ pyReprStr s.name ++ ", 'category': " ++ pyReprStr s.category ++
    ", 'level': " ++ pyReprStr s.level ++ "\x7d"

/-- Python `str()` of a list of dicts. -/
def reprList (f : α → String) (l : List α) : String :=
  "[" ++ String.intercalate ", " (l.map f) ++ "]"

/-- Embeds `str(resume_data)`: a dict-style rendering of the typed resume. -/
def strOfResumeData (rd : ResumeData) : String :=
  "\x7b'full_name': " ++ pyReprStr rd.full_name ++
  ", 'email': " ++ pyReprStr rd.email ++
  ", 'phone': " ++ pyReprStr rd.phone ++
  ", 'city': " ++ pyReprStr rd.city ++
  ", 'country': " ++ pyReprStr rd.country ++
  ", 'summary': " ++ pyReprStr rd.summary ++
  ", 'content': \x7b'summary': " ++ pyReprStr rd.contentSummary ++
  ", 'experiences': " ++ reprList reprExperience rd.contentExperiences ++
  ", 'education': " ++ reprList reprEducation rd.contentEducation ++
  ", 'skills': " ++ reprList reprSkill rd.contentSkills ++ "\x7d" ++
  (match rd.experiences with
   | none => ""
   | some es => ", 'experiences': " ++ reprList reprExperience es) ++
  (match rd.education with
   | none => ""
   | some es => ", 'education': " ++ reprList reprEducation es) ++
  (match rd.skills with
   | none => ""
   | some ss => ", 'skills': " ++ reprList reprSkill ss) ++ "\x7d"

/-! ## The six section checkers (`_check_*`) -/

/-- Embeds `_check_contact_info`: +25 for each of email, phone, (city or country),
full name being truthy (non-empty). -/
def checkContactInfo (rd : ResumeData) : Int :=
  let score : Int := 0
  let score := if rd.email ≠ "" then score + 25 else score
  let score := if rd.phone ≠ "" then score + 25 else score
  let score := if rd.city ≠ "" || rd.country ≠ "" then score + 25 else score
  let score := if rd.full_name ≠ "" then score + 25 else score
  score

/-- Embeds `_check_summary`: 0 if empty; else base 30, a length bonus
(+25 for `100 ≤ len ≤ 500`, elif +15 for `len > 500`), +20 if any of the
first five action verbs occurs as a substring of the lowercased summary,
−10 if the summary does not end with `'.'`; clamped to `[0, 100]`.
Python `len` counts code points, so `String.length` is used. -/
def checkSummary (rd : ResumeData) : Int :=
  if rd.summary = "" then 0
  else
    let score : Int := 30
    let n := rd.summary.length
    let score :=
      if 100 ≤ n ∧ n ≤ 500 then score + 25
      else if 500 < n then score + 15
      else score
    let summaryLower := toLowerStr rd.summary
    let score :=
      if (actionVerbKeywords.take 5).any (fun kw => strContainsStr summaryLower kw)
      then score + 20 else score
    let score :=
      if ¬ (endsWithStr rd.summary ".") then score - 10 else score
    pyMin 100 (pyMax 0 score)

/- `_check_experience`: 0 if no entries; else base 30; +20 if ≥ 2 entries,
elif +10 if ≥ 1; +25 if the number of entries with a truthy description is
at least `len(experiences) // 2`; +25 if some description matches
`\d+%|\$\d+|\d+\s*(?:years?|months?)`; capped at 100. -/

/-- One-or-more ASCII digits at the head of a character list; returns the
rest after the digits when at least one digit was consumed. -/
def chompDigits : List Char → Option (List Char)
  | c :: cs =>
    if c.isDigit then
      some (chompDigitsAux cs)
    else none
  | [] => none
where
  /-- Consume the remaining digits greedily. -/
  chompDigitsAux : List Char → List Char
    | c :: cs => if c.isDigit then chompDigitsAux cs else c :: cs
    | [] => []

/-- Consumes `\s*` over ASCII whitespace. -/
def chompSpaces : List Char → List Char
  | c :: cs => if c == ' ' || c == '\t' || c == '\n' || c == '\r' then chompSpaces cs else c :: cs
  | [] => []

/-- Does the achievement regex `\d+%|\$\d+|\d+\s*(?:years?|months?)` match
starting exactly at this position? -/
def achievementAt (l : List Char) : Bool :=
  (match chompDigits l with
   | some rest =>
     -- `\d+%` : after the digits, a percent sign
     (match rest with
      | '%' :: _ => true
      | _ => false)
     ||
     -- `\d+\s*(?:years?|months?)`
     (let rest := chompSpaces rest
      startsWithList "years".toList rest || startsWithList "year".toList rest ||
      startsWithList "months".toList rest || startsWithList "month".toList rest)
   | none => false)
  ||
  -- `\$\d+`
  (match l with
   | '$' :: rest => (chompDigits rest).isSome
   | _ => false)

/-- Models `re.search` of the achievement pattern: a match starting at some
position.  (Greedy `\d+` cannot cause a missed match for this pattern: if a
match exists at some position, one exists where the digit run is taken
greedily from a later start.) -/
def hasAchievementPattern (s : String) : Bool :=
  (List.range (s.toList.length + 1)).any (fun i => achievementAt (s.toList.drop i))

/-- Embeds `_check_experience`, see the comment above `chompDigits`. -/
def checkExperience (rd : ResumeData) : Int :=
  let experiences := rd.expList
  if experiences.isEmpty then 0
  else
    let score : Int := 30
    let score :=
      if 2 ≤ experiences.length then score + 20
      else if 1 ≤ experiences.length then score + 10
      else score
    let hasDescriptions := (experiences.filter (fun e => e.description ≠ "")).length
    let score :=
      if experiences.length / 2 ≤ hasDescriptions then score + 25 else score
    let achievementsFound := experiences.any (fun e => hasAchievementPattern e.description)
    let score := if achievementsFound then score + 25 else score
    pyMin 100 score

/-- Embeds `_check_education`: 0 if no entries; else base 40; +30 if some entry
has a truthy degree; +20 if some entry has a truthy institution; capped at
100. -/
def checkEducation (rd : ResumeData) : Int :=
  let education := rd.eduList
  if education.isEmpty then 0
  else
    let score : Int := 40
    let score := if education.any (fun e => e.degree ≠ "") then score + 30 else score
    let score := if education.any (fun e => e.institution ≠ "") then score + 20 else score
    pyMin 100 score

/-- Embeds `_check_skills`: 0 if no entries; else base 30; +25 if ≥ 10 skills,
elif +15 if ≥ 5; +20 if some skill has a category; +25 if some skill has a
level; capped at 100. -/
def checkSkills (rd : ResumeData) : Int :=
  let skills := rd.skillList
  if skills.isEmpty then 0
  else
    let score : Int := 30
    let score :=
      if 10 ≤ skills.length then score + 25
      else if 5 ≤ skills.length then score + 15
      else score
    let score := if skills.any (fun s => s.category ≠ "") then score + 20 else score
    let score := if skills.any (fun s => s.level ≠ "") then score + 25 else score
    pyMin 100 score

/-- Embeds `_check_formatting`: start at 100; −30 if `'table'` occurs in the
lowercased `str(resume_data)`; +10 if one of the four capitalized header
words occurs verbatim; clamp to `[0, 100]`. -/
def checkFormatting (rd : ResumeData) : Int :=
  let score : Int := 100
  let text := strOfResumeData rd
  let score := if strContainsStr (toLowerStr text) "table" then score - 30 else score
  let score :=
    if ["Experience", "Education", "Skills", "Summary"].any
        (fun h => strContainsStr text h)
    then score + 10 else score
  pyMin 100 (pyMax 0 score)

/-! ## Keyword analysis (`_analyze_keywords`)

Python sets are modelled as duplicate-free lists (`List.dedup`); the
`list(...)` conversions then keep those lists, whose lengths equal the set
cardinalities.  `match_rate` (a Python float) is modelled exactly in `ℚ`. -/

/-- The concatenated resume text `_analyze_keywords` scans: summary, nested
content summary, the experience descriptions and the skill names — and,
notably, not the education descriptions. -/
def resumeTextForKeywords (rd : ResumeData) : String :=
  joinSpace
    [rd.summary,
     rd.contentSummary,
     joinSpace ((rd.experiences.getD []).map Experience.description),
     joinSpace ((rd.skills.getD []).map Skill.name)]

/-- Embeds `resume_words = set(re.findall(r'\b[a-zA-Z]{3,}\b', all_text.lower()))`. -/
def resumeWords (rd : ResumeData) : List String :=
  (findAlphaTokens (toLowerStr (resumeTextForKeywords rd))).dedup

/-- Embeds `job_words`, empty when the job description is falsy (the empty string). -/
def jobWords (jobDescription : String) : List String :=
  if jobDescription ≠ "" then (findAlphaTokens (toLowerStr jobDescription)).dedup else []

/-- Result record of `_analyze_keywords`. -/
structure KeywordAnalysis where
  matched : List String
  missing : List String
  match_rate : ℚ
  total_matched : Nat
  total_missing : Nat
  deriving DecidableEq, Repr

/-- Embeds `matched = list(resume_words & job_words & all_keywords)` (as a
duplicate-free list). -/
def matchedKeywords (rd : ResumeData) (jobDescription : String) : List String :=
  (resumeWords rd).filter
    (fun w => decide (w ∈ jobWords jobDescription) && decide (w ∈ allKeywords))

/-- Embeds `missing = list((job_words - resume_words) & all_keywords)`. -/
def missingKeywords (rd : ResumeData) (jobDescription : String) : List String :=
  (jobWords jobDescription).filter
    (fun w => !decide (w ∈ resumeWords rd) && decide (w ∈ allKeywords))

/-- Embeds `job_words & all_keywords`, the denominator set of the match rate. -/
def jobMatchDenom (jobDescription : String) : List String :=
  (jobWords jobDescription).filter (fun w => decide (w ∈ allKeywords))

/-- Embeds `_analyze_keywords`:
`matched = resume ∩ job ∩ keywords`, `missing = (job − resume) ∩ keywords`,
`match_rate = len(matched) / len(job ∩ keywords) * 100` guarded against an
empty denominator. -/
def analyzeKeywords (rd : ResumeData) (jobDescription : String) : KeywordAnalysis :=
  { matched := matchedKeywords rd jobDescription
    missing := missingKeywords rd jobDescription
    match_rate :=
      if ¬ (jobMatchDenom jobDescription).isEmpty then
        ((matchedKeywords rd jobDescription).length : ℚ) /
          ((jobMatchDenom jobDescription).length : ℚ) * 100
      else 0
    total_matched := (matchedKeywords rd jobDescription).length
    total_missing := (missingKeywords rd jobDescription).length }

/-! ## Suggestion generation (`_generate_suggestions`) -/

/-- One suggestion record `{'type': …, 'message': …, 'priority': …}`. -/
structure Suggestion where
  type : String
  message : String
  priority : String
  deriving DecidableEq, Repr

/-- The unconditional rule-6 suggestion. -/
def actionVerbsSuggestion : Suggestion :=
  ⟨"content", "Use strong action verbs like \"achieved\", \"led\", \"developed\"", "low"⟩

/-- The unconditional rule-7 suggestion. -/
def quantifySuggestion : Suggestion :=
  ⟨"content", "Quantify achievements with numbers and percentages", "medium"⟩

/-- The six section scores, as the `scores` dict of `analyze_resume_data`. -/
structure SectionScores where
  contact_info : Int
  summary : Int
  experience : Int
  education : Int
  skills : Int
  formatting : Int
  deriving DecidableEq, Repr

/-- The `scores` dict as an association list, in insertion order. -/
def SectionScores.toPairs (s : SectionScores) : List (String × Int) :=
  [("contact_info", s.contact_info), ("summary", s.summary),
   ("experience", s.experience), ("education", s.education),
   ("skills", s.skills), ("formatting", s.formatting)]

/-- Embeds `_generate_suggestions`: sequential conditional appends, then the two
unconditional suggestions. -/
def generateSuggestions (scores : SectionScores) (ka : KeywordAnalysis) :
    List Suggestion :=
  let suggestions : List Suggestion := []
  let suggestions :=
    if scores.contact_info < 75 then
      suggestions ++ [⟨"contact_info", "Add missing contact information", "high"⟩]
    else suggestions
  let suggestions :=
    if scores.summary < 50 then
      suggestions ++ [⟨"summary", "Add or improve your professional summary", "high"⟩]
    else suggestions
  let suggestions :=
    if scores.experience < 50 then
      suggestions ++ [⟨"experience", "Add more work experience with descriptions", "high"⟩]
    else suggestions
  let suggestions :=
    if scores.skills < 50 then
      suggestions ++ [⟨"skills", "Add more skills with proficiency levels", "medium"⟩]
    else suggestions
  let suggestions :=
    if ¬ ka.missing.isEmpty then
      suggestions ++
        [⟨"keywords",
          "Consider adding these keywords: " ++
            String.intercalate ", " (ka.missing.take 5), "medium"⟩]
    else suggestions
  let suggestions := suggestions ++ [actionVerbsSuggestion]
  suggestions ++ [quantifySuggestion]

/-! ## Formatting issues (`_check_formatting_issues`) -/

/-- One formatting issue record. -/
structure FormattingIssue where
  type : String
  message : String
  severity : String
  deriving DecidableEq, Repr

/-- Embeds `_check_formatting_issues`: a length warning/info, then one warning
listing the required section words missing from the lowercased stringified
data. -/
def checkFormattingIssues (rd : ResumeData) : List FormattingIssue :=
  let text := strOfResumeData rd
  let issues : List FormattingIssue :=
    if text.length < 500 then
      [⟨"content_length", "Resume content appears too short", "warning"⟩]
    else if text.length > 10000 then
      [⟨"content_length", "Resume content may be too long", "info"⟩]
    else []
  let requiredSections := ["summary", "experience", "education", "skills"]
  let missingSections :=
    requiredSections.filter (fun s => ¬ strContainsStr (toLowerStr (strOfResumeData rd)) s)
  if ¬ missingSections.isEmpty then
    issues ++
      [⟨"missing_sections",
        "Missing sections: " ++ String.intercalate ", " missingSections, "warning"⟩]
  else issues

/-! ## The aggregator (`analyze_resume_data`, success path) -/

/-- The report assembled by `analyze_resume_data` on its success path. -/
structure AnalysisReport where
  overall_score : Int
  section_scores : List (String × Int)
  keywords : List String
  missing_keywords : List String
  suggestions : List Suggestion
  formatting_issues : List FormattingIssue
  keyword_analysis : KeywordAnalysis
  deriving DecidableEq, Repr

/-- The `scores` dict of `analyze_resume_data`: the six checkers. -/
def sectionScoresOf (rd : ResumeData) : SectionScores :=
  { contact_info := checkContactInfo rd
    summary := checkSummary rd
    experience := checkExperience rd
    education := checkEducation rd
    skills := checkSkills rd
    formatting := checkFormatting rd }

/-- Embeds `analyze_resume_data` over a well-formed resume: the six checkers, the
overall score `sum(scores.values()) // len(scores)` (Python floor division,
`Int.fdiv`), keyword analysis, suggestions, formatting issues. -/
def analyzeResumeData (rd : ResumeData) (jobDescription : String) : AnalysisReport :=
  { overall_score :=
      Int.fdiv (((sectionScoresOf rd).toPairs.map Prod.snd).sum)
        ((sectionScoresOf rd).toPairs.length)
    section_scores := (sectionScoresOf rd).toPairs
    keywords := (analyzeKeywords rd jobDescription).matched
    missing_keywords := (analyzeKeywords rd jobDescription).missing
    suggestions := generateSuggestions (sectionScoresOf rd) (analyzeKeywords rd jobDescription)
    formatting_issues := checkFormattingIssues rd
    keyword_analysis := analyzeKeywords rd jobDescription }

/-! ## Claim-side and spec-side definitions used by the claims -/

/-- Modelled from the claim's words: at least half of the entries have a
non-empty description (`count ≥ len/2` over the rationals, i.e.
`2 * count ≥ len`). -/
def atLeastHalfHaveDescription (es : List Experience) : Prop :=
  es.length ≤ 2 * (es.filter (fun e => e.description ≠ "")).length

/-- The experience score as claim C2 describes it: identical to the code
except that the +25 description bonus requires at least half the entries
to have a non-empty description. -/
def claimedExperienceScore (es : List Experience) : Int :=
  if es.isEmpty then 0
  else
    let score : Int := 30
    let score :=
      if 2 ≤ es.length then score + 20
      else if 1 ≤ es.length then score + 10
      else score
    let score :=
      if es.length ≤ 2 * (es.filter (fun e => e.description ≠ "")).length
      then score + 25 else score
    let score :=
      if es.any (fun e => hasAchievementPattern e.description) then score + 25 else score
    pyMin 100 score

/-- The experience score the code actually computes, in claim style: the
+25 description bonus requires only `count ≥ len // 2` (floor), so with
three entries and one description the bonus does apply. -/
def flooredHalfExperienceScore (es : List Experience) : Int :=
  if es.isEmpty then 0
  else
    let score : Int := 30
    let score :=
      if 2 ≤ es.length then score + 20
      else if 1 ≤ es.length then score + 10
      else score
    let score :=
      if es.length / 2 ≤ (es.filter (fun e => e.description ≠ "")).length
      then score + 25 else score
    let score :=
      if es.any (fun e => hasAchievementPattern e.description) then score + 25 else score
    pyMin 100 score

/-- The six multi-word dictionary entries. -/
def multiWordKeywords : List String :=
  ["machine learning", "data analysis", "project management",
   "problem solving", "critical thinking", "time management"]

/-- The §4.3 rule table, in its fixed order: a guard and the suggestion it
emits.  Rules 6 and 7 are unconditional. -/
def suggestionRules (scores : SectionScores) (ka : KeywordAnalysis) :
    List (Bool × Suggestion) :=
  [(decide (scores.contact_info < 75),
    ⟨"contact_info", "Add missing contact information", "high"⟩),
   (decide (scores.summary < 50),
    ⟨"summary", "Add or improve your professional summary", "high"⟩),
   (decide (scores.experience < 50),
    ⟨"experience", "Add more work experience with descriptions", "high"⟩),
   (decide (scores.skills < 50),
    ⟨"skills", "Add more skills with proficiency levels", "medium"⟩),
   (!ka.missing.isEmpty,
    ⟨"keywords",
     "Consider adding these keywords: " ++ String.intercalate ", " (ka.missing.take 5),
     "medium"⟩),
   (true, actionVerbsSuggestion),
   (true, quantifySuggestion)]

/-- Modelled from the spec's words (§4.3): evaluate the rules in their
fixed order, keep every triggered rule's suggestion, suppress nothing. -/
def orderedSuggestionsSpec (scores : SectionScores) (ka : KeywordAnalysis) :
    List Suggestion :=
  ((suggestionRules scores ka).filter Prod.fst).map Prod.snd

/-! ## Untyped layer: Python dynamic semantics of `analyze_resume_data`

`PyVal` is a unityped model of the Python values the scorer can receive.
The `pyCheck*` functions run in `Except String`, raising exactly where the
Python code would (`.get` on a non-dict raises `AttributeError`, `len` of
a non-sized value and iteration of a non-iterable raise `TypeError`,
`' '.join` over non-strings raises `TypeError`, `.lower()` on a non-string
raises `AttributeError`); error messages are abbreviated.  `any(...)` and
the achievement loop short-circuit exactly as the generators do. -/

inductive PyVal where
  | pyNone : PyVal
  | pyBool : Bool → PyVal
  | pyInt : Int → PyVal
  | pyFloat : ℚ → PyVal
  | pyStr : String → PyVal
  | pyList : List PyVal → PyVal
  | pyDict : List (String × PyVal) → PyVal

/-- Python truthiness of a value. -/
def PyVal.truthy : PyVal → Bool
  | .pyNone => false
  | .pyBool b => b
  | .pyInt n => decide (n ≠ 0)
  | .pyFloat q => decide (q ≠ 0)
  | .pyStr s => decide (s ≠ "")
  | .pyList l => !l.isEmpty
  | .pyDict l => !l.isEmpty

/-- Embeds `v.get(key, default)`: `AttributeError` unless `v` is a dict. -/
def pyGet (v : PyVal) (key : String) (default : PyVal) : Except String PyVal :=
  match v with
  | .pyDict kvs => .ok ((kvs.lookup key).getD default)
  | _ => .error "AttributeError: get"

/-- Embeds `len(v)`: `TypeError` unless `v` is sized. -/
def pyLen : PyVal → Except String Nat
  | .pyStr s => .ok s.length
  | .pyList l => .ok l.length
  | .pyDict l => .ok l.length
  | _ => .error "TypeError: len"

/-- Embeds `for x in v`: `TypeError` unless `v` is iterable; iterating a string
yields its characters, a dict its keys. -/
def pyIter : PyVal → Except String (List PyVal)
  | .pyList l => .ok l
  | .pyStr s => .ok (s.toList.map (fun c => .pyStr (String.mk [c])))
  | .pyDict l => .ok (l.map (fun kv => .pyStr kv.1))
  | _ => .error "TypeError: not iterable"

/-- A `' '.join` item must be a string. -/
def pyJoinStr : PyVal → Except String String
  | .pyStr s => .ok s
  | _ => .error "TypeError: join expected str"

/-- Embeds `v.lower()`: `AttributeError` unless `v` is a string. -/
def pyLower : PyVal → Except String String
  | .pyStr s => .ok (toLowerStr s)
  | _ => .error "AttributeError: lower"

/-- Embeds `any(e.get(key) for e in items)`, short-circuiting like the generator. -/
def pyAnyTruthyKey (key : String) : List PyVal → Except String Bool
  | [] => .ok false
  | e :: rest => do
    let d ← pyGet e key .pyNone
    if d.truthy then pure true else pyAnyTruthyKey key rest

/-- The achievement loop of `_check_experience`: check each description in
order and `break` at the first regex match. -/
def pyFindAchievement : List PyVal → Except String Bool
  | [] => .ok false
  | e :: rest => do
    let d ← pyGet e "description" (.pyStr "")
    let s ← (match d with
             | .pyStr s => Except.ok s
             | _ => Except.error "TypeError: expected str")
    if hasAchievementPattern s then pure true else pyFindAchievement rest

mutual
/-- Python `str()` of a value (simplified `repr`). -/
def pyReprVal : PyVal → String
  | .pyNone => "None"
  | .pyBool b => if b then "True" else "False"
  | .pyInt n => toString n
  | .pyFloat q => toString q
  | .pyStr s => pyReprStr s
  | .pyList l => "[" ++ pyReprItems l ++ "]"
  | .pyDict l => "\x7b" ++ pyReprPairs l ++ "\x7d"

/-- Comma-joined `repr`s of list items. -/
def pyReprItems : List PyVal → String
  | [] => ""
  | [v] => pyReprVal v
  | v :: rest => pyReprVal v ++ ", " ++ pyReprItems rest

/-- Comma-joined `key: value` renderings of dict entries. -/
def pyReprPairs : List (String × PyVal) → String
  | [] => ""
  | [(k, v)] => pyReprStr k ++ ": " ++ pyReprVal v
  | (k, v) :: rest => pyReprStr k ++ ": " ++ pyReprVal v ++ ", " ++ pyReprPairs rest
end

/-- Embeds `_check_contact_info` over an arbitrary Python value. -/
def pyCheckContactInfo (rd : PyVal) : Except String Int := do
  let email ← pyGet rd "email" .pyNone
  let phone ← pyGet rd "phone" .pyNone
  let city ← pyGet rd "city" .pyNone
  let country ← pyGet rd "country" .pyNone
  let fullName ← pyGet rd "full_name" .pyNone
  pure ((if email.truthy then (25 : Int) else 0) +
        (if phone.truthy then 25 else 0) +
        (if city.truthy || country.truthy then 25 else 0) +
        (if fullName.truthy then 25 else 0))

/-- Embeds `_check_summary` over an arbitrary Python value. -/
def pyCheckSummary (rd : PyVal) : Except String Int := do
  let summary ← pyGet rd "summary" (.pyStr "")
  if ¬ summary.truthy then
    pure 0
  else do
    let n ← pyLen summary
    let score : Int := 30
    let score := if 100 ≤ n ∧ n ≤ 500 then score + 25
                 else if 500 < n then score + 15 else score
    let sLow ← pyLower summary
    let score :=
      if (actionVerbKeywords.take 5).any (fun kw => strContainsStr sLow kw)
      then score + 20 else score
    let sRaw ← (match summary with
                | .pyStr s => Except.ok s
                | _ => Except.error "AttributeError: endswith")
    let score := if ¬ (endsWithStr sRaw ".") then score - 10 else score
    pure (pyMin 100 (pyMax 0 score))

/-- Embeds `_check_experience` over an arbitrary Python value. -/
def pyCheckExperience (rd : PyVal) : Except String Int := do
  let content ← pyGet rd "content" (.pyDict [])
  let contentExps ← pyGet content "experiences" (.pyList [])
  let experiences ← pyGet rd "experiences" contentExps
  if ¬ experiences.truthy then
    pure 0
  else do
    let n ← pyLen experiences
    let score : Int := 30
    let score := if 2 ≤ n then score + 20 else if 1 ≤ n then score + 10 else score
    let items ← pyIter experiences
    let descTruthy ← items.mapM (fun e => do
      let d ← pyGet e "description" .pyNone
      pure d.truthy)
    let hasDescriptions := (descTruthy.filter id).length
    let score := if n / 2 ≤ hasDescriptions then score + 25 else score
    let achievementsFound ← pyFindAchievement items
    let score := if achievementsFound then score + 25 else score
    pure (pyMin 100 score)

/-- Embeds `_check_education` over an arbitrary Python value. -/
def pyCheckEducation (rd : PyVal) : Except String Int := do
  let content ← pyGet rd "content" (.pyDict [])
  let contentEdu ← pyGet content "education" (.pyList [])
  let education ← pyGet rd "education" contentEdu
  if ¬ education.truthy then
    pure 0
  else do
    let items ← pyIter education
    let score : Int := 40
    let hasDegree ← pyAnyTruthyKey "degree" items
    let score := if hasDegree then score + 30 else score
    let hasInstitution ← pyAnyTruthyKey "institution" items
    let score := if hasInstitution then score + 20 else score
    pure (pyMin 100 score)

/-- Embeds `_check_skills` over an arbitrary Python value. -/
def pyCheckSkills (rd : PyVal) : Except String Int := do
  let content ← pyGet rd "content" (.pyDict [])
  let contentSkills ← pyGet content "skills" (.pyList [])
  let skills ← pyGet rd "skills" contentSkills
  if ¬ skills.truthy then
    pure 0
  else do
    let n ← pyLen skills
    let score : Int := 30
    let score := if 10 ≤ n then score + 25 else if 5 ≤ n then score + 15 else score
    let items ← pyIter skills
    let hasCategories ← pyAnyTruthyKey "category" items
    let score := if hasCategories then score + 20 else score
    let hasLevels ← pyAnyTruthyKey "level" items
    let score := if hasLevels then score + 25 else score
    pure (pyMin 100 score)

/-- Embeds `_check_formatting` over an arbitrary Python value (total: `str()`
never raises). -/
def pyCheckFormatting (rd : PyVal) : Int :=
  let text := pyReprVal rd
  let score : Int := 100
  let score := if strContainsStr (toLowerStr text) "table" then score - 30 else score
  let score :=
    if ["Experience", "Education", "Skills", "Summary"].any
        (fun h => strContainsStr text h)
    then score + 10 else score
  pyMin 100 (pyMax 0 score)

/-- Embeds `_check_formatting_issues` over an arbitrary Python value (total). -/
def pyCheckFormattingIssues (rd : PyVal) : List FormattingIssue :=
  let text := pyReprVal rd
  let issues : List FormattingIssue :=
    if text.length < 500 then
      [⟨"content_length", "Resume content appears too short", "warning"⟩]
    else if text.length > 10000 then
      [⟨"content_length", "Resume content may be too long", "info"⟩]
    else []
  let requiredSections := ["summary", "experience", "education", "skills"]
  let missingSections :=
    requiredSections.filter (fun s => ¬ strContainsStr (toLowerStr (pyReprVal rd)) s)
  if ¬ missingSections.isEmpty then
    issues ++
      [⟨"missing_sections",
        "Missing sections: " ++ String.intercalate ", " missingSections, "warning"⟩]
  else issues

/-- Embeds `_analyze_keywords` over arbitrary Python values for the resume data
and the job description. -/
def pyAnalyzeKeywords (rd jd : PyVal) : Except String KeywordAnalysis := do
  let s1 ← pyGet rd "summary" (.pyStr "")
  let content ← pyGet rd "content" (.pyDict [])
  let s2 ← pyGet content "summary" (.pyStr "")
  let expsV ← pyGet rd "experiences" (.pyList [])
  let expItems ← pyIter expsV
  let descVals ← expItems.mapM (fun e => pyGet e "description" (.pyStr ""))
  let descStrs ← descVals.mapM pyJoinStr
  let skillsV ← pyGet rd "skills" (.pyList [])
  let skItems ← pyIter skillsV
  let nameVals ← skItems.mapM (fun e => pyGet e "name" (.pyStr ""))
  let nameStrs ← nameVals.mapM pyJoinStr
  let s1s ← pyJoinStr s1
  let s2s ← pyJoinStr s2
  let allText := joinSpace [s1s, s2s, joinSpace descStrs, joinSpace nameStrs]
  let rWords := (findAlphaTokens (toLowerStr allText)).dedup
  let jWords ←
    if jd.truthy then do
      let s ← pyLower jd
      pure ((findAlphaTokens s).dedup)
    else pure []
  let matched := rWords.filter (fun w => decide (w ∈ jWords) && decide (w ∈ allKeywords))
  let missing := jWords.filter (fun w => !decide (w ∈ rWords) && decide (w ∈ allKeywords))
  let denom := jWords.filter (fun w => decide (w ∈ allKeywords))
  pure { matched := matched, missing := missing,
         match_rate :=
           if ¬ denom.isEmpty then (matched.length : ℚ) / (denom.length : ℚ) * 100 else 0,
         total_matched := matched.length, total_missing := missing.length }

/-- The intermediate assignments of the `try` block of
`analyze_resume_data`: the six scores, the keyword analysis, the
suggestions and the formatting issues. -/
structure PyAnalysisParts where
  scores : SectionScores
  ka : KeywordAnalysis
  suggestions : List Suggestion
  formattingIssues : List FormattingIssue

/-- The fallible body of `analyze_resume_data` (the `try` block). -/
def pyAnalyzeBody (rd jd : PyVal) : Except String PyAnalysisParts := do
  let c ← pyCheckContactInfo rd
  let su ← pyCheckSummary rd
  let ex ← pyCheckExperience rd
  let ed ← pyCheckEducation rd
  let sk ← pyCheckSkills rd
  let fo := pyCheckFormatting rd
  let scores : SectionScores :=
    { contact_info := c, summary := su, experience := ex,
      education := ed, skills := sk, formatting := fo }
  let ka ← pyAnalyzeKeywords rd jd
  let suggestions := generateSuggestions scores ka
  let formattingIssues := pyCheckFormattingIssues rd
  pure { scores := scores, ka := ka, suggestions := suggestions,
         formattingIssues := formattingIssues }

/-- A suggestion record as a Python dict. -/
def suggestionToPy (s : Suggestion) : PyVal :=
  .pyDict [("type", .pyStr s.type), ("message", .pyStr s.message),
           ("priority", .pyStr s.priority)]

/-- A formatting issue record as a Python dict. -/
def issueToPy (i : FormattingIssue) : PyVal :=
  .pyDict [("type", .pyStr i.type), ("message", .pyStr i.message),
           ("severity", .pyStr i.severity)]

/-- The keyword-analysis record as a Python dict. -/
def kaToPy (ka : KeywordAnalysis) : PyVal :=
  .pyDict [("matched", .pyList (ka.matched.map PyVal.pyStr)),
           ("missing", .pyList (ka.missing.map PyVal.pyStr)),
           ("match_rate", .pyFloat ka.match_rate),
           ("total_matched", .pyInt ka.total_matched),
           ("total_missing", .pyInt ka.total_missing)]

/-- The success-path report dict literal of `analyze_resume_data`. -/
def reportEntries (p : PyAnalysisParts) : List (String × PyVal) :=
  [("success", .pyBool true),
   ("overall_score",
    .pyInt (Int.fdiv ((p.scores.toPairs.map Prod.snd).sum) (p.scores.toPairs.length))),
   ("section_scores", .pyDict (p.scores.toPairs.map (fun kv => (kv.1, .pyInt kv.2)))),
   ("keywords", .pyList (p.ka.matched.map PyVal.pyStr)),
   ("missing_keywords", .pyList (p.ka.missing.map PyVal.pyStr)),
   ("suggestions", .pyList (p.suggestions.map suggestionToPy)),
   ("formatting_issues", .pyList (p.formattingIssues.map issueToPy)),
   ("keyword_analysis", kaToPy p.ka)]

/-- Embeds `analyze_resume_data` with its `try/except Exception` wrapper: a total
function on arbitrary Python values. -/
def pyAnalyzeResumeData (rd jd : PyVal) : PyVal :=
  match pyAnalyzeBody rd jd with
  | .ok p => .pyDict (reportEntries p)
  | .error e => .pyDict [("success", .pyBool false), ("error", .pyStr e)]

/-! ## Section-score bounds -/

/-- Bounds transfer to the second component of a key/score pair. -/
theorem pairSndBounds (s : String) (v : Int) (h : 0 ≤ v ∧ v ≤ 100) :
    0 ≤ (s, v).2 ∧ (s, v).2 ≤ 100 := h

/-- The final clamp `min(100, max(0, score))` lands in `[0, 100]`. -/
theorem clampBounds (s : Int) : 0 ≤ pyMin 100 (pyMax 0 s) ∧ pyMin 100 (pyMax 0 s) ≤ 100 := by
  unfold pyMin pyMax
  repeat' split
  all_goals omega

/-- Bounds: `_check_contact_info` scores in `[0, 100]`. -/
theorem checkContactInfo_bounds (rd : ResumeData) :
    0 ≤ checkContactInfo rd ∧ checkContactInfo rd ≤ 100 := by
  unfold checkContactInfo
  dsimp only
  repeat' split
  all_goals decide

/-- Bounds: `_check_summary` scores in `[0, 100]`. -/
theorem checkSummary_bounds (rd : ResumeData) :
    0 ≤ checkSummary rd ∧ checkSummary rd ≤ 100 := by
  unfold checkSummary
  split
  · exact ⟨le_refl 0, by norm_num⟩
  · exact clampBounds _

/-- Bounds: `_check_experience` scores in `[0, 100]`. -/
theorem checkExperience_bounds (rd : ResumeData) :
    0 ≤ checkExperience rd ∧ checkExperience rd ≤ 100 := by
  unfold checkExperience
  dsimp only
  repeat' split
  all_goals decide

/-- Bounds: `_check_education` scores in `[0, 100]`. -/
theorem checkEducation_bounds (rd : ResumeData) :
    0 ≤ checkEducation rd ∧ checkEducation rd ≤ 100 := by
  unfold checkEducation
  dsimp only
  repeat' split
  all_goals decide

/-- Bounds: `_check_skills` scores in `[0, 100]`. -/
theorem checkSkills_bounds (rd : ResumeData) :
    0 ≤ checkSkills rd ∧ checkSkills rd ≤ 100 := by
  unfold checkSkills
  dsimp only
  repeat' split
  all_goals decide

/-- Bounds: `_check_formatting` scores in `[0, 100]`. -/
theorem checkFormatting_bounds (rd : ResumeData) :
    0 ≤ checkFormatting rd ∧ checkFormatting rd ≤ 100 := by
  unfold checkFormatting
  exact clampBounds _

/-! ## Claim C8 -/

/-- Claim C8: for any resume whose summary is the concrete string
`"Experienced engineer led three major product launches, increasing revenue 30%."`
(non-empty, length 78 < 100, containing the action verb `"led"`, ending
with a period), `_check_summary` returns exactly 50: base 30, no length
bonus, +20 for the action verb, no −10 deduction. -/
theorem C8_concrete_summary_score (rd : ResumeData)
    (h : rd.summary =
      "Experienced engineer led three major product launches, increasing revenue 30%.") :
    checkSummary rd = 50 := by
  unfold checkSummary
  rw [h]
  decide

/-- Witness for C8 at a concrete resume. -/
theorem C8_concrete_summary_score_witness :
    checkSummary
      { summary :=
        "Experienced engineer led three major product launches, increasing revenue 30%." } = 50 :=
  C8_concrete_summary_score _ rfl

/-! ## Claim C1 -/

/-- Claim C1: for every resume and job description, the report's
`overall_score` equals the integer floor of the sum of the six
`section_scores` values divided by 6 (and there are exactly six of them). -/
theorem C1_overall_score_floor_mean (rd : ResumeData) (jd : String) :
    ((analyzeResumeData rd jd).section_scores.map Prod.snd).length = 6 ∧
    (analyzeResumeData rd jd).overall_score =
      ⌊((((analyzeResumeData rd jd).section_scores.map Prod.snd).sum : ℤ) : ℚ) / 6⌋ := by
  refine ⟨rfl, ?_⟩
  show Int.fdiv (((analyzeResumeData rd jd).section_scores.map Prod.snd).sum) 6 = _
  rw [Int.fdiv_eq_ediv _ (by norm_num)]
  rw [show ((6 : ℚ)) = ((6 : ℕ) : ℚ) by norm_num]
  rw [Rat.floor_intCast_div_natCast]
  norm_num

/-! ## Claim C5 -/

/-- Claim C5: for every resume and job description, the report's
`section_scores` mapping has exactly the six keys `contact_info`,
`summary`, `experience`, `education`, `skills`, `formatting`, in that
order, and every value is an integer in `[0, 100]`. -/
theorem C5_section_scores_keys_and_bounds (rd : ResumeData) (jd : String) :
    (analyzeResumeData rd jd).section_scores.map Prod.fst =
      ["contact_info", "summary", "experience", "education", "skills", "formatting"] ∧
    ∀ p ∈ (analyzeResumeData rd jd).section_scores, 0 ≤ p.2 ∧ p.2 ≤ 100 := by
  have hsec : (analyzeResumeData rd jd).section_scores = (sectionScoresOf rd).toPairs := rfl
  constructor
  · rw [hsec, SectionScores.toPairs]
    rfl
  · intro p hp
    rw [hsec, SectionScores.toPairs] at hp
    simp only [sectionScoresOf] at hp
    cases hp with
    | head => exact pairSndBounds _ _ (checkContactInfo_bounds rd)
    | tail _ hp =>
    cases hp with
    | head => exact pairSndBounds _ _ (checkSummary_bounds rd)
    | tail _ hp =>
    cases hp with
    | head => exact pairSndBounds _ _ (checkExperience_bounds rd)
    | tail _ hp =>
    cases hp with
    | head => exact pairSndBounds _ _ (checkEducation_bounds rd)
    | tail _ hp =>
    cases hp with
    | head => exact pairSndBounds _ _ (checkSkills_bounds rd)
    | tail _ hp =>
    cases hp with
    | head => exact pairSndBounds _ _ (checkFormatting_bounds rd)
    | tail _ hp => exact absurd hp (List.not_mem_nil p)

set_option maxRecDepth 40000 in
/-- Witness for C5: the formatting entry of the empty resume's report. -/
theorem C5_section_scores_keys_and_bounds_witness :
    0 ≤ (100 : Int) ∧ (100 : Int) ≤ 100 :=
  (C5_section_scores_keys_and_bounds {} "").2 ("formatting", 100) (by decide)

/-! ## Claim C2 -/

/-- Claim C2, counterexample: with three experience entries of which exactly
one has a non-empty description, fewer than half have descriptions, yet
`_check_experience` returns 75 = 30 + 20 + 25 — the description bonus IS
applied, while the claimed scoring yields 50. -/
theorem C2_counterexample_one_of_three_descriptions :
    ¬ atLeastHalfHaveDescription
        [⟨"managed a team"⟩, ⟨""⟩, ⟨""⟩] ∧
    checkExperience
        { experiences := some [⟨"managed a team"⟩, ⟨""⟩, ⟨""⟩] } = 75 ∧
    claimedExperienceScore
        [⟨"managed a team"⟩, ⟨""⟩, ⟨""⟩] = 50 := by
  refine ⟨?_, ?_, ?_⟩
  · unfold atLeastHalfHaveDescription
    decide
  · decide
  · decide

/-- Claim C2, amended: the experience score is 0 when there are zero
entries; for non-empty lists the +25 description bonus is applied iff the
number of entries with a non-empty description is at least
`len(entries) // 2` (floor division) — so with three entries and exactly
one description the bonus does apply. -/
theorem C2_amended_experience_bonus_floor_half (rd : ResumeData) :
    checkExperience rd = flooredHalfExperienceScore rd.expList ∧
    (rd.expList = [] → checkExperience rd = 0) := by
  constructor
  · rfl
  · intro h
    unfold checkExperience
    rw [h]
    decide

/-- Witness for C2 (amended) at the empty resume. -/
theorem C2_amended_experience_bonus_floor_half_witness :
    checkExperience {} = 0 :=
  (C2_amended_experience_bonus_floor_half {}).2 rfl

/-! ## Claim C6 -/

/-- Claim C6: for every resume and job description, `match_rate` equals
`|matched| / |job_words ∩ all_keywords| * 100` (exact rational arithmetic)
when the denominator set is non-empty and 0 otherwise; in particular an
empty job description always gives `match_rate = 0`. -/
theorem C6_match_rate_formula (rd : ResumeData) (jd : String) :
    (jobMatchDenom jd ≠ [] →
      (analyzeKeywords rd jd).match_rate =
        ((analyzeKeywords rd jd).matched.length : ℚ) /
          ((jobMatchDenom jd).length : ℚ) * 100) ∧
    (jobMatchDenom jd = [] → (analyzeKeywords rd jd).match_rate = 0) ∧
    (jd = "" → (analyzeKeywords rd jd).match_rate = 0) := by
  have hrate : (analyzeKeywords rd jd).match_rate =
      if ¬ (jobMatchDenom jd).isEmpty then
        ((matchedKeywords rd jd).length : ℚ) / ((jobMatchDenom jd).length : ℚ) * 100
      else 0 := rfl
  have hmatched : (analyzeKeywords rd jd).matched = matchedKeywords rd jd := rfl
  refine ⟨?_, ?_, ?_⟩
  · intro h
    rw [hrate, hmatched, if_pos]
    simp [List.isEmpty_iff, h]
  · intro h
    rw [hrate, if_neg]
    simp [List.isEmpty_iff, h]
  · intro h
    subst h
    rw [hrate, if_neg]
    have : jobMatchDenom "" = [] := rfl
    simp [this]

/-- Witness for C6: a job description with one dictionary keyword not on
the resume gives match rate 0/1×100, and the empty job description gives 0. -/
theorem C6_match_rate_formula_witness :
    ((analyzeKeywords {} "python required").match_rate =
      ((analyzeKeywords {} "python required").matched.length : ℚ) /
        ((jobMatchDenom "python required").length : ℚ) * 100) ∧
    (analyzeKeywords {} "").match_rate = 0 :=
  ⟨(C6_match_rate_formula {} "python required").1 (by decide),
   (C6_match_rate_formula {} "").2.2 rfl⟩

/-! ## Claim C7 -/

/-- Claim C7: every string in the `missing` set is in the job-description
vocabulary and in the reference vocabulary, and not in the resume
vocabulary — `missing ⊆ (jobWords ∩ allKeywords)` and
`missing ∩ resumeWords = ∅`. -/
theorem C7_missing_subset_and_disjoint (rd : ResumeData) (jd : String) (w : String)
    (hw : w ∈ (analyzeKeywords rd jd).missing) :
    (w ∈ jobWords jd ∧ w ∈ allKeywords) ∧ w ∉ resumeWords rd := by
  have hw' : w ∈ missingKeywords rd jd := hw
  unfold missingKeywords at hw'
  rw [List.mem_filter] at hw'
  obtain ⟨hmem, hcond⟩ := hw'
  simp only [Bool.and_eq_true, Bool.not_eq_true', decide_eq_true_eq,
    decide_eq_false_iff_not] at hcond
  exact ⟨⟨hmem, hcond.2⟩, hcond.1⟩

/-- Witness for C7: `"docker"` is missing for an empty resume against the
job description `"docker required"`. -/
theorem C7_missing_subset_and_disjoint_witness :
    (("docker" ∈ jobWords "docker required" ∧ "docker" ∈ allKeywords) ∧
      "docker" ∉ resumeWords {}) :=
  C7_missing_subset_and_disjoint {} "docker required" "docker" (by decide)

/-! ## Claim C9 -/

/-- Every token the tokenizer produces is purely alphabetic and has at
least three characters. -/
theorem mem_findAlphaTokens_alpha {w s : String} (h : w ∈ findAlphaTokens s) :
    w.toList.all Char.isAlpha = true ∧ 3 ≤ w.toList.length := by
  unfold findAlphaTokens at h
  rw [List.mem_map] at h
  obtain ⟨r, hr, rfl⟩ := h
  rw [List.mem_filter] at hr
  obtain ⟨-, hcond⟩ := hr
  rw [Bool.and_eq_true, decide_eq_true_eq] at hcond
  exact ⟨hcond.1, hcond.2⟩

/-- Resume-vocabulary members are tokens of the lowered resume text. -/
theorem mem_resumeWords_token {rd : ResumeData} {w : String}
    (h : w ∈ resumeWords rd) :
    w ∈ findAlphaTokens (toLowerStr (resumeTextForKeywords rd)) := by
  unfold resumeWords at h
  exact List.mem_dedup.mp h

/-- Job-vocabulary members are tokens of the lowered job description. -/
theorem mem_jobWords_token {jd w : String} (h : w ∈ jobWords jd) :
    w ∈ findAlphaTokens (toLowerStr jd) := by
  unfold jobWords at h
  split at h
  · exact List.mem_dedup.mp h
  · cases h

/-- An ASCII letter is not whitespace. -/
theorem alpha_not_whitespace {c : Char} (h : c.isAlpha = true) :
    c.isWhitespace = false := by
  by_contra hw
  rw [Bool.not_eq_false] at hw
  unfold Char.isWhitespace at hw
  simp only [Bool.or_eq_true, decide_eq_true_eq] at hw
  rcases hw with ((rfl | rfl) | rfl) | rfl <;> exact absurd h (by decide)

/-- Claim C9: every string in the matched and missing keyword sets is a
purely alphabetic single token with no whitespace, so the multi-word
dictionary entries can never appear in matched or missing. -/
theorem C9_matched_missing_single_tokens (rd : ResumeData) (jd : String) :
    (∀ w, w ∈ (analyzeKeywords rd jd).matched ∨ w ∈ (analyzeKeywords rd jd).missing →
      w.toList.all Char.isAlpha = true ∧ ∀ c ∈ w.toList, c.isWhitespace = false) ∧
    (∀ s ∈ multiWordKeywords,
      s ∉ (analyzeKeywords rd jd).matched ∧ s ∉ (analyzeKeywords rd jd).missing) := by
  have hmatched : (analyzeKeywords rd jd).matched = matchedKeywords rd jd := rfl
  have hmissing : (analyzeKeywords rd jd).missing = missingKeywords rd jd := rfl
  have key : ∀ w, w ∈ (analyzeKeywords rd jd).matched ∨ w ∈ (analyzeKeywords rd jd).missing →
      w.toList.all Char.isAlpha = true := by
    intro w hw
    rcases hw with hw | hw
    · rw [hmatched] at hw
      unfold matchedKeywords at hw
      rw [List.mem_filter] at hw
      exact (mem_findAlphaTokens_alpha (mem_resumeWords_token hw.1)).1
    · rw [hmissing] at hw
      unfold missingKeywords at hw
      rw [List.mem_filter] at hw
      exact (mem_findAlphaTokens_alpha (mem_jobWords_token hw.1)).1
  constructor
  · intro w hw
    refine ⟨key w hw, ?_⟩
    intro c hc
    have hall := key w hw
    rw [List.all_eq_true] at hall
    exact alpha_not_whitespace (hall c hc)
  · intro s hs
    constructor
    · intro hmem
      have hall := key s (Or.inl hmem)
      rw [List.all_eq_true] at hall
      fin_cases hs <;>
        exact absurd (hall ' ' (by decide)) (by decide)
    · intro hmem
      have hall := key s (Or.inr hmem)
      rw [List.all_eq_true] at hall
      fin_cases hs <;>
        exact absurd (hall ' ' (by decide)) (by decide)

/-- Witness for C9: the matched keyword `"python"` of a concrete analysis
is alphabetic and whitespace-free, and `"machine learning"` is absent. -/
theorem C9_matched_missing_single_tokens_witness :
    ("python".toList.all Char.isAlpha = true ∧
      ∀ c ∈ "python".toList, c.isWhitespace = false) ∧
    ("machine learning" ∉ (analyzeKeywords { summary := "python expert" } "python").matched ∧
      "machine learning" ∉ (analyzeKeywords { summary := "python expert" } "python").missing) :=
  ⟨(C9_matched_missing_single_tokens { summary := "python expert" } "python").1
      "python" (Or.inl (by decide)),
   (C9_matched_missing_single_tokens { summary := "python expert" } "python").2
      "machine learning" (by decide)⟩

/-! ## Claim C4 -/

/-- Claim C4: for every section-score mapping and keyword analysis, the
suggestion list equals the rule table of §4.3 filtered by its guards in
the fixed rule order (so no triggered suggestion is suppressed and the
order is deterministic), and it always ends with the action-verbs
suggestion followed by the quantify-achievements suggestion, hence has at
least two elements. -/
theorem C4_suggestions_rule_order (scores : SectionScores) (ka : KeywordAnalysis) :
    generateSuggestions scores ka = orderedSuggestionsSpec scores ka ∧
    (∃ pre, generateSuggestions scores ka =
      pre ++ [actionVerbsSuggestion, quantifySuggestion]) ∧
    2 ≤ (generateSuggestions scores ka).length := by
  have heq : generateSuggestions scores ka = orderedSuggestionsSpec scores ka := by
    unfold generateSuggestions orderedSuggestionsSpec suggestionRules
    dsimp only
    by_cases h1 : scores.contact_info < 75 <;>
    by_cases h2 : scores.summary < 50 <;>
    by_cases h3 : scores.experience < 50 <;>
    by_cases h4 : scores.skills < 50 <;>
    by_cases h5 : ka.missing.isEmpty <;>
      simp [h1, h2, h3, h4, h5]
  have hshape : ∃ pre, generateSuggestions scores ka =
      pre ++ [actionVerbsSuggestion, quantifySuggestion] := by
    unfold generateSuggestions
    dsimp only
    exact ⟨_, List.append_assoc _ _ _⟩
  refine ⟨heq, hshape, ?_⟩
  obtain ⟨pre, hpre⟩ := hshape
  rw [hpre, List.length_append]
  simp

/-! ## Claim C3 -/

/-- Splitting runs across a non-word separator concatenates the runs of
the two sides. -/
theorem splitRunsAux_append_nonword {sep : Char} (hsep : isWordChar sep = false)
    (ys : List Char) :
    ∀ (xs acc : List Char),
      splitRunsAux (xs ++ sep :: ys) acc = splitRunsAux xs acc ++ splitRunsAux ys [] := by
  intro xs
  induction xs with
  | nil =>
    intro acc
    simp only [List.nil_append, splitRunsAux, hsep]
    by_cases h : acc.isEmpty <;> simp [h]
  | cons c cs ih =>
    intro acc
    simp only [List.cons_append, splitRunsAux]
    split_ifs with h1 h2 <;> simp [ih]

/-- Word runs of a space-separated concatenation. -/
theorem splitRuns_append_space (l1 l2 : List Char) :
    splitRuns (l1 ++ ' ' :: l2) = splitRuns l1 ++ splitRuns l2 :=
  splitRunsAux_append_nonword (by decide) l2 l1 []

/-- Tokens of a space-separated concatenation of character lists. -/
theorem findAlphaTokens_mk_append (l1 l2 : List Char) :
    findAlphaTokens (String.mk (l1 ++ ' ' :: l2)) =
      findAlphaTokens (String.mk l1) ++ findAlphaTokens (String.mk l2) := by
  show ((splitRuns (l1 ++ ' ' :: l2)).filter _).map _ =
    ((splitRuns l1).filter _).map _ ++ ((splitRuns l2).filter _).map _
  rw [splitRuns_append_space, List.filter_append, List.map_append]

/-- Lowered tokens of `a ++ " " ++ b` decompose into the two sides. -/
theorem tokensLower_append_space (a b : String) :
    findAlphaTokens (toLowerStr (a ++ " " ++ b)) =
      findAlphaTokens (toLowerStr a) ++ findAlphaTokens (toLowerStr b) := by
  unfold toLowerStr
  have h : (a ++ " " ++ b).toList = a.toList ++ ' ' :: b.toList := by
    show (a ++ " " ++ b).data = a.data ++ ' ' :: b.data
    rw [String.data_append, String.data_append, List.append_assoc]
    rfl
  rw [h, List.map_append, List.map_cons]
  rw [show Char.toLower ' ' = ' ' from by decide]
  exact findAlphaTokens_mk_append _ _

/-- Lowered tokens of a `' '.join` are the concatenation of the parts'
lowered tokens. -/
theorem findAlphaTokens_joinSpace (l : List String) :
    findAlphaTokens (toLowerStr (joinSpace l)) =
      (l.map (fun s => findAlphaTokens (toLowerStr s))).flatten := by
  induction l with
  | nil => rfl
  | cons s rest ih =>
    cases rest with
    | nil => simp [joinSpace]
    | cons t ts =>
      rw [show joinSpace (s :: t :: ts) = s ++ " " ++ joinSpace (t :: ts) from rfl]
      rw [tokensLower_append_space, ih]
      simp

/-- Claim C3, counterexample: `_analyze_keywords` (the matcher used by
`analyze_resume_data`) does NOT scan education descriptions — `"python"`
appears (as a token, and is a dictionary keyword) only in an education
description, yet is absent from the resume vocabulary. -/
theorem C3_counterexample_education_ignored :
    "python" ∈ allKeywords ∧
    "python" ∈ findAlphaTokens (toLowerStr "python kubernetes expertise") ∧
    "python" ∉ resumeWords
      { education := some [{ degree := "", institution := "",
                             description := "python kubernetes expertise" }] } := by
  refine ⟨by decide, by decide, by decide⟩

/-- Claim C3, amended: the resume vocabulary of `_analyze_keywords` is
built from exactly the summary, the nested content summary, each
experience description, and each skill name — tokenized case-insensitively
into alphabetic tokens of length ≥ 3 and deduplicated — and the education
entries are ignored entirely. -/
theorem C3_amended_vocabulary_sources (rd : ResumeData) (w : String) :
    (w ∈ resumeWords rd ↔
      w ∈ findAlphaTokens (toLowerStr rd.summary) ∨
      w ∈ findAlphaTokens (toLowerStr rd.contentSummary) ∨
      (∃ e ∈ rd.experiences.getD [], w ∈ findAlphaTokens (toLowerStr e.description)) ∨
      (∃ sk ∈ rd.skills.getD [], w ∈ findAlphaTokens (toLowerStr sk.name))) ∧
    resumeWords { rd with education := some [], contentEducation := [] } = resumeWords rd := by
  constructor
  · unfold resumeWords resumeTextForKeywords
    rw [List.mem_dedup, findAlphaTokens_joinSpace]
    simp only [List.map_cons, List.map_nil, findAlphaTokens_joinSpace,
      List.flatten_cons, List.flatten_nil, List.append_nil, List.map_map,
      List.mem_append, List.mem_flatten, List.mem_map, Function.comp,
      exists_exists_and_eq_and]
  · rfl

/-! ## Claim C10 -/

/-- Claim C10: for every input — including malformed input of the wrong
shape — `analyze_resume_data` returns a dict (never raises): the dict
always starts with a `success` key, with `success = True` and the report
entries on normal completion, and exactly
`{'success': False, 'error': msg}` when the body raises; concretely, a
non-dict resume input takes the error path with an `AttributeError`. -/
theorem C10_analyze_total_success_key (rd jd : PyVal) :
    (∃ kvs, pyAnalyzeResumeData rd jd = .pyDict kvs ∧
      ((∃ rest, kvs = ("success", PyVal.pyBool true) :: rest) ∨
       (∃ msg, kvs = [("success", PyVal.pyBool false), ("error", PyVal.pyStr msg)]))) ∧
    pyAnalyzeResumeData (.pyInt 3) (.pyStr "") =
      .pyDict [("success", .pyBool false), ("error", .pyStr "AttributeError: get")] := by
  constructor
  · cases h : pyAnalyzeBody rd jd with
    | ok p =>
      refine ⟨reportEntries p, ?_, Or.inl ⟨_, rfl⟩⟩
      unfold pyAnalyzeResumeData
      rw [h]
    | error e =>
      refine ⟨[("success", .pyBool false), ("error", .pyStr e)], ?_, Or.inr ⟨e, rfl⟩⟩
      unfold pyAnalyzeResumeData
      rw [h]
  · rfl
